import Mathlib

/-!
# Verification of the day-19 workflow engine

Shallow embedding of `src/crates/day-19/src/main.rs`: a rule-based part
classification engine with a concrete evaluator (`apply_workflows` /
`solve1`) and a range-splitting evaluator (`apply_a_workflow2` / `solve2`).
Machine integers (`i64`) are modelled as `Int` (no arithmetic here comes
near the 64-bit bounds), the `while let Some(..) = stack.pop()` loops are
modelled with an explicit fuel parameter (`none` = fuel exhausted while the
loop was still running), and Rust's `HashMap` built by
`workflow_get_map` is modelled by a lookup in which a later duplicate name
shadows an earlier one, matching `HashMap::from_iter`.
-/

namespace Day19

/-- `const MIN_RANGE: i64 = 1`. -/
def MIN_RANGE : Int := 1

/-- `const MAX_RANGE: i64 = 4000`. -/
def MAX_RANGE : Int := 4000

/-- `struct Part { x, m, a, s: i64 }`. -/
structure Part where
  x : Int
  m : Int
  a : Int
  s : Int
deriving DecidableEq

/-- `struct Range { min, max: i64 }`; both bounds inclusive. -/
structure Range where
  min : Int
  max : Int
deriving DecidableEq

/-- `impl Default for Range`: the full universe `[1, 4000]`. -/
def defaultRange : Range := ⟨MIN_RANGE, MAX_RANGE⟩

/-- `fn possibilities(range: &Range) -> i64 { range.max - range.min + 1 }`. -/
def possibilities (range : Range) : Int := range.max - range.min + 1

/-- `struct PartRanges { x, m, a, s: Vec<Range> }`. -/
structure PartRanges where
  x : List Range
  m : List Range
  a : List Range
  s : List Range
deriving DecidableEq

/-- `impl Default for PartRanges`: one full-universe interval per attribute. -/
def defaultPartRanges : PartRanges :=
  ⟨[defaultRange], [defaultRange], [defaultRange], [defaultRange]⟩

/-- `fn possibilities_ranges`: chains the four interval lists, maps each
interval to its `possibilities`, and takes the product of the whole chain. -/
def possibilities_ranges (ranges : PartRanges) : Int :=
  (((ranges.x ++ ranges.m ++ ranges.a ++ ranges.s).map possibilities)).prod

/-- `enum Category { X, M, A, S }`. -/
inductive Category where
  | X
  | M
  | A
  | S
deriving DecidableEq

/-- `impl Index<Category> for Part`. -/
def partGet (part : Part) (category : Category) : Int :=
  match category with
  | Category.X => part.x
  | Category.M => part.m
  | Category.A => part.a
  | Category.S => part.s

/-- `impl Index<Category> for PartRanges`. -/
def prGet (ranges : PartRanges) (category : Category) : List Range :=
  match category with
  | Category.X => ranges.x
  | Category.M => ranges.m
  | Category.A => ranges.a
  | Category.S => ranges.s

/-- `impl IndexMut<Category> for PartRanges` (functional update; also covers
the `PartRanges { x: ranges, ..invalid_ranges.clone() }` struct updates). -/
def prSet (ranges : PartRanges) (category : Category) (l : List Range) : PartRanges :=
  match category with
  | Category.X => { ranges with x := l }
  | Category.M => { ranges with m := l }
  | Category.A => { ranges with a := l }
  | Category.S => { ranges with s := l }

/-- `enum Comparison { LessThan, GreaterThan }`. -/
inductive Comparison where
  | LessThan
  | GreaterThan
deriving DecidableEq

/-- `struct Condition { category, comparison, value }`. -/
structure Condition where
  category : Category
  comparison : Comparison
  value : Int
deriving DecidableEq

/-- `fn to_range(condition: &Condition) -> Range`: `<v` becomes
`[MIN_RANGE, max(v-1, MIN_RANGE)]`, `>v` becomes `[min(v+1, MAX_RANGE), MAX_RANGE]`. -/
def to_range (condition : Condition) : Range :=
  match condition.comparison with
  | Comparison.LessThan => ⟨MIN_RANGE, max (condition.value - 1) MIN_RANGE⟩
  | Comparison.GreaterThan => ⟨min (condition.value + 1) MAX_RANGE, MAX_RANGE⟩

/-- `fn range_valid(range: &Range) -> bool { range.min <= range.max }`. -/
def range_valid (range : Range) : Bool := range.min ≤ range.max

/-- `fn opposite(range: &Range) -> Vec<Range>`: the two clamped candidate
complements, kept when `range_valid`. -/
def opposite (range : Range) : List Range :=
  ([⟨MIN_RANGE, max (range.min - 1) MIN_RANGE⟩,
    ⟨min (range.max + 1) MAX_RANGE, MAX_RANGE⟩] : List Range).filter range_valid

/-- `fn intersect_range_range`. -/
def intersect_range_range (range1 range2 : Range) : Option Range :=
  let range : Range := ⟨max range1.min range2.min, min range1.max range2.max⟩
  if range_valid range then some range else none

/-- `fn intersect_ranges_range`. -/
def intersect_ranges_range (ranges : List Range) (range : Range) : List Range :=
  ranges.filterMap (fun range_ => intersect_range_range range_ range)

/-- `fn intersect_ranges_ranges`. -/
def intersect_ranges_ranges (ranges1 ranges2 : List Range) : List Range :=
  (ranges1.map (fun range1 => intersect_ranges_range ranges2 range1)).flatten

/-- `fn intersect_part_ranges`. -/
def intersect_part_ranges (ranges1 ranges2 : PartRanges) : PartRanges :=
  ⟨intersect_ranges_ranges ranges1.x ranges2.x,
   intersect_ranges_ranges ranges1.m ranges2.m,
   intersect_ranges_ranges ranges1.a ranges2.a,
   intersect_ranges_ranges ranges1.s ranges2.s⟩

/-- `struct Workflow { name, conditions: Vec<(Condition, String)>, fallback }`. -/
structure Workflow where
  name : String
  conditions : List (Condition × String)
  fallback : String
deriving DecidableEq

/-- `fn workflow_get_map` + `HashMap::get`: lookup by name, a later duplicate
name shadowing an earlier one, as with `HashMap::from_iter`. -/
def workflow_lookup (workflows : List Workflow) (name : String) : Option Workflow :=
  workflows.reverse.find? (fun w => w.name == name)

/-- `fn apply_a_workflow1`: the target of the first condition the part
satisfies, or the fallback. -/
def apply_a_workflow1 (part : Part) (workflow : Workflow) : String :=
  match workflow.conditions.find? (fun cn =>
      match cn.1.comparison with
      | Comparison.LessThan => partGet part cn.1.category < cn.1.value
      | Comparison.GreaterThan => partGet part cn.1.category > cn.1.value) with
  | some cn => cn.2
  | none => workflow.fallback

/-- The `while let Some(name) = stack.pop()` loop of `fn apply_workflows`,
with fuel; the list head is the top of the Rust `Vec` stack. -/
def apply_workflows_loop (workflows : List Workflow) (part : Part) :
    Nat → List String → Option (Except String Bool)
  | 0, _ => none
  | _ + 1, [] => some (Except.error "no workflow found")
  | fuel + 1, name :: rest =>
    if name = "R" then some (Except.ok false)
    else if name = "A" then some (Except.ok true)
    else
      match workflow_lookup workflows name with
      | none => some (Except.error "missing workflow")
      | some workflow =>
          apply_workflows_loop workflows part fuel
            (apply_a_workflow1 part workflow :: rest)

/-- `fn apply_workflows`: start the loop from the stack `["in"]`. -/
def apply_workflows (part : Part) (workflows : List Workflow) (fuel : Nat) :
    Option (Except String Bool) :=
  apply_workflows_loop workflows part fuel ["in"]

/-- The body of the `map` in `fn apply_a_workflow2`: one condition updates the
accumulated `(results, invalid_ranges)` state. -/
def apply_a_workflow2_step (acc : List (String × PartRanges) × PartRanges)
    (cn : Condition × String) : List (String × PartRanges) × PartRanges :=
  let condition := cn.1
  let range := to_range condition
  let ranges := intersect_ranges_range (prGet acc.2 condition.category) range
  let part_ranges := prSet acc.2 condition.category ranges
  let invalid_ranges := prSet acc.2 condition.category
    (intersect_ranges_ranges (prGet acc.2 condition.category) (opposite range))
  (acc.1 ++ [(cn.2, part_ranges)], invalid_ranges)

/-- `fn apply_a_workflow2`: walk the conditions carrying `invalid_ranges`
(the still-unmatched box), then append the fallback with the final
`invalid_ranges`. -/
def apply_a_workflow2 (workflow : Workflow) : List (String × PartRanges) :=
  let acc := workflow.conditions.foldl apply_a_workflow2_step ([], defaultPartRanges)
  acc.1 ++ [(workflow.fallback, acc.2)]

/-- The pairs one `solve2` iteration pushes for workflow `w` reached with box
`ranges`: each emitted pair intersected with `ranges`, kept when its
`possibilities_ranges` is non-zero. -/
def solve2_pushes (ranges : PartRanges) (workflow : Workflow) :
    List (String × PartRanges) :=
  (apply_a_workflow2 workflow).filterMap (fun p =>
    let new_ranges := intersect_part_ranges ranges p.2
    if possibilities_ranges new_ranges ≠ 0 then some (p.1, new_ranges) else none)

/-- The `while let Some((name, ranges)) = stack.pop()` loop of `fn solve2`,
with fuel; the list head is the top of the Rust `Vec` stack, so the pairs
pushed by `for_each` are prepended in reverse order. -/
def solve2_loop (workflows : List Workflow) :
    Nat → List (String × PartRanges) → Int → Option (Except String Int)
  | 0, _, _ => none
  | _ + 1, [], result => some (Except.ok result)
  | fuel + 1, (name, ranges) :: rest, result =>
    if name = "R" then solve2_loop workflows fuel rest result
    else if name = "A" then
      solve2_loop workflows fuel rest (result + possibilities_ranges ranges)
    else
      match workflow_lookup workflows name with
      | none => some (Except.error "missing workflow")
      | some workflow =>
          solve2_loop workflows fuel
            ((solve2_pushes ranges workflow).reverse ++ rest) result

/-- `fn solve2`: start the loop from the stack `[("in", full box)]`. -/
def solve2 (workflows : List Workflow) (fuel : Nat) : Option (Except String Int) :=
  solve2_loop workflows fuel [("in", defaultPartRanges)] 0

/-- The `filter_map` + short-circuiting `sum::<Result<i64, _>>()` of
`fn solve1`: errors abort, rejected parts contribute nothing, accepted parts
contribute `x + m + a + s`. -/
def solve1_loop (workflows : List Workflow) (fuel : Nat) :
    List Part → Int → Option (Except String Int)
  | [], acc => some (Except.ok acc)
  | part :: rest, acc =>
    match apply_workflows part workflows fuel with
    | none => none
    | some (Except.error e) => some (Except.error e)
    | some (Except.ok false) => solve1_loop workflows fuel rest acc
    | some (Except.ok true) =>
        solve1_loop workflows fuel rest (acc + (part.x + part.m + part.a + part.s))

/-- `fn solve1`. -/
def solve1 (workflows : List Workflow) (parts : List Part) (fuel : Nat) :
    Option (Except String Int) :=
  solve1_loop workflows fuel parts 0

/-- `solve2_loop` instrumented with a ghost accumulator recording every
`(name, box)` pair pushed onto the worklist; the computation is otherwise
identical (see `solve2_loop_trace_fst`). -/
def solve2_loop_trace (workflows : List Workflow) :
    Nat → List (String × PartRanges) → Int → List (String × PartRanges) →
    Option (Except String Int) × List (String × PartRanges)
  | 0, _, _, tr => (none, tr)
  | _ + 1, [], result, tr => (some (Except.ok result), tr)
  | fuel + 1, (name, ranges) :: rest, result, tr =>
    if name = "R" then solve2_loop_trace workflows fuel rest result tr
    else if name = "A" then
      solve2_loop_trace workflows fuel rest (result + possibilities_ranges ranges) tr
    else
      match workflow_lookup workflows name with
      | none => (some (Except.error "missing workflow"), tr)
      | some workflow =>
          solve2_loop_trace workflows fuel
            ((solve2_pushes ranges workflow).reverse ++ rest) result
            (tr ++ solve2_pushes ranges workflow)

/-- All pairs ever pushed onto the worklist during a run of `solve2`
(including the initial `("in", full box)` pair). -/
def solve2_trace (workflows : List Workflow) (fuel : Nat) :
    List (String × PartRanges) :=
  (solve2_loop_trace workflows fuel [("in", defaultPartRanges)] 0
    [("in", defaultPartRanges)]).2

/-- The canonical 11-workflow puzzle fixture, transcribed from the
`workflows()` test fixture of the source. -/
def fixtureWorkflows : List Workflow :=
  [⟨"px", [(⟨Category.A, Comparison.LessThan, 2006⟩, "qkq"),
           (⟨Category.M, Comparison.GreaterThan, 2090⟩, "A")], "rfg"⟩,
   ⟨"pv", [(⟨Category.A, Comparison.GreaterThan, 1716⟩, "R")], "A"⟩,
   ⟨"lnx", [(⟨Category.M, Comparison.GreaterThan, 1548⟩, "A")], "A"⟩,
   ⟨"rfg", [(⟨Category.S, Comparison.LessThan, 537⟩, "gd"),
            (⟨Category.X, Comparison.GreaterThan, 2440⟩, "R")], "A"⟩,
   ⟨"qs", [(⟨Category.S, Comparison.GreaterThan, 3448⟩, "A")], "lnx"⟩,
   ⟨"qkq", [(⟨Category.X, Comparison.LessThan, 1416⟩, "A")], "crn"⟩,
   ⟨"crn", [(⟨Category.X, Comparison.GreaterThan, 2662⟩, "A")], "R"⟩,
   ⟨"in", [(⟨Category.S, Comparison.LessThan, 1351⟩, "px")], "qqz"⟩,
   ⟨"qqz", [(⟨Category.S, Comparison.GreaterThan, 2770⟩, "qs"),
            (⟨Category.M, Comparison.LessThan, 1801⟩, "hdj")], "R"⟩,
   ⟨"gd", [(⟨Category.A, Comparison.GreaterThan, 3333⟩, "R")], "R"⟩,
   ⟨"hdj", [(⟨Category.M, Comparison.GreaterThan, 838⟩, "A")], "pv"⟩]

/-- The 5 sample records of the fixture (`parts()` in the source tests). -/
def fixtureParts : List Part :=
  [⟨787, 2655, 1222, 2876⟩, ⟨1679, 44, 2067, 496⟩, ⟨2036, 264, 79, 2244⟩,
   ⟨2461, 1339, 466, 291⟩, ⟨2127, 1623, 2188, 1013⟩]

/-- Entry workflow of a table on which `solve2` miscounts: `in{a<2001:f,R}`. -/
def cexIn : Workflow := ⟨"in", [(⟨Category.A, Comparison.LessThan, 2001⟩, "f")], "R"⟩

/-- Second workflow of that table: `f{a>3000:A,R}`. -/
def cexF : Workflow := ⟨"f", [(⟨Category.A, Comparison.GreaterThan, 3000⟩, "A")], "R"⟩

/-- An acyclic two-workflow table, entry `"in"`, every target defined or a
sink, on which `solve2` disagrees with the concrete evaluator. -/
def cexWorkflows : List Workflow := [cexIn, cexF]

/-- A single workflow, `in{a<2001:A,a>1000:A,A}`, whose one-pass split does
not partition the full input box. -/
def cexW2 : Workflow :=
  ⟨"in", [(⟨Category.A, Comparison.LessThan, 2001⟩, "A"),
          (⟨Category.A, Comparison.GreaterThan, 1000⟩, "A")], "A"⟩

/-- The box `solve2` pushes for target `"A"` when it processes `cexWorkflows`:
its `a` interval list is empty, so it denotes no record at all. -/
def c6Box : PartRanges := ⟨[⟨1, 4000⟩], [⟨1, 4000⟩], [], [⟨1, 4000⟩]⟩

/-! ## Shared lemmas -/

/-- The instrumented loop computes the same answer as `solve2_loop`. -/
theorem solve2_loop_trace_fst (workflows : List Workflow) :
    ∀ (fuel : Nat) (stack : List (String × PartRanges)) (result : Int)
      (tr : List (String × PartRanges)),
      (solve2_loop_trace workflows fuel stack result tr).1 =
        solve2_loop workflows fuel stack result := by
  intro fuel
  induction fuel with
  | zero => intro stack result tr; rfl
  | succ n ih =>
      intro stack result tr
      match stack with
      | [] => rfl
      | (name, ranges) :: rest =>
          simp only [solve2_loop_trace, solve2_loop]
          split_ifs
          · exact ih rest result tr
          · exact ih rest (result + possibilities_ranges ranges) tr
          · cases hw : workflow_lookup workflows name with
            | none => simp [hw]
            | some w => simp only [hw]; exact ih _ result _

/-- Every pair produced by `solve2_pushes` has non-zero `possibilities_ranges`
(that is exactly the predicate of its `filter_map`). -/
theorem mem_solve2_pushes_nonzero {ranges : PartRanges} {w : Workflow}
    {q : String × PartRanges} (hq : q ∈ solve2_pushes ranges w) :
    possibilities_ranges q.2 ≠ 0 := by
  simp only [solve2_pushes, List.mem_filterMap] at hq
  obtain ⟨a, -, ha⟩ := hq
  split at ha
  · rename_i hcond
    cases ha
    exact hcond
  · exact absurd ha (by simp)

/-- Invariant of the instrumented loop: if every pair recorded so far has
non-zero `possibilities_ranges`, so does every pair in the final trace. -/
theorem solve2_loop_trace_mem_nonzero (workflows : List Workflow) :
    ∀ (fuel : Nat) (stack : List (String × PartRanges)) (result : Int)
      (tr : List (String × PartRanges)),
      (∀ q ∈ tr, possibilities_ranges q.2 ≠ 0) →
      ∀ p ∈ (solve2_loop_trace workflows fuel stack result tr).2,
        possibilities_ranges p.2 ≠ 0 := by
  intro fuel
  induction fuel with
  | zero => intro stack result tr htr p hp; exact htr p hp
  | succ n ih =>
      intro stack result tr htr p hp
      match stack with
      | [] => exact htr p hp
      | (name, ranges) :: rest =>
          simp only [solve2_loop_trace] at hp
          split_ifs at hp
          · exact ih rest result tr htr p hp
          · exact ih rest (result + possibilities_ranges ranges) tr htr p hp
          · cases hw : workflow_lookup workflows name with
            | none => simp only [hw] at hp; exact htr p hp
            | some w =>
                simp only [hw] at hp
                refine ih _ result _ ?_ p hp
                intro q hq
                rcases List.mem_append.mp hq with h | h
                · exact htr q h
                · exact mem_solve2_pushes_nonzero h

/-- One step of the concrete loop at a non-sink name whose lookup succeeds. -/
theorem apply_workflows_loop_step (workflows : List Workflow) (part : Part)
    (fuel : Nat) (name : String) (rest : List String) (w : Workflow)
    (hR : name ≠ "R") (hA : name ≠ "A")
    (hw : workflow_lookup workflows name = some w) :
    apply_workflows_loop workflows part (fuel + 1) (name :: rest) =
      apply_workflows_loop workflows part fuel
        (apply_a_workflow1 part w :: rest) := by
  simp [apply_workflows_loop, hR, hA, hw]

/-- `workflow_lookup cexWorkflows "in"`. -/
theorem cex_lookup_in : workflow_lookup cexWorkflows "in" = some cexIn := rfl

/-- `workflow_lookup cexWorkflows "f"`. -/
theorem cex_lookup_f : workflow_lookup cexWorkflows "f" = some cexF := rfl

/-- Routing of a record by the entry workflow of `cexWorkflows`. -/
theorem cex_apply1_in (p : Part) :
    apply_a_workflow1 p cexIn = if p.a < 2001 then "f" else "R" := by
  by_cases h : p.a < 2001 <;> simp [apply_a_workflow1, cexIn, List.find?, partGet, h]

/-- Routing of a record with `a ≤ 3000` by workflow `f` of `cexWorkflows`. -/
theorem cex_apply1_f (p : Part) (h : ¬ p.a > 3000) :
    apply_a_workflow1 p cexF = "R" := by
  simp [apply_a_workflow1, cexF, List.find?, partGet, h]

/-- On a never-empty stack the concrete loop cannot fall through to the
post-loop `"no workflow found"` error. -/
theorem apply_workflows_loop_ne_noWorkflowFound (workflows : List Workflow)
    (part : Part) :
    ∀ (fuel : Nat) (name : String) (rest : List String),
      apply_workflows_loop workflows part fuel (name :: rest) ≠
        some (Except.error "no workflow found") := by
  intro fuel
  induction fuel with
  | zero => intro name rest h; simp [apply_workflows_loop] at h
  | succ n ih =>
      intro name rest
      simp only [apply_workflows_loop]
      split_ifs
      · simp
      · simp
      · cases hw : workflow_lookup workflows name with
        | none =>
            simp only [ne_eq, Option.some.injEq]
            intro h
            exact absurd (Except.error.inj h) (by decide)
        | some w => exact ih _ rest

/-! ## Claims -/

/-- C3 (counterexample): the spec says the volume of a box is zero whenever
some attribute's interval list is empty; but `possibilities_ranges` of a box
with an empty `x` list and full `m`, `a`, `s` lists is `4000^3`, not zero —
the empty list simply contributes no factor to the product. -/
theorem possibilities_ranges_empty_counterexample :
    possibilities_ranges ⟨[], [defaultRange], [defaultRange], [defaultRange]⟩ =
      64000000000 ∧ (64000000000 : Int) ≠ 0 := by
  exact ⟨rfl, by decide⟩

/-- C3 (amended): `possibilities_ranges` is the product over the four
attributes of the PRODUCT (not the sum) of the cardinalities of that
attribute's intervals; it coincides with the spec's product-of-sums only when
every attribute's list is a singleton, and an empty attribute list yields the
product of the remaining intervals' cardinalities rather than zero. -/
theorem possibilities_ranges_product_form :
    (∀ ranges : PartRanges,
      possibilities_ranges ranges =
        (ranges.x.map possibilities).prod * (ranges.m.map possibilities).prod *
          (ranges.a.map possibilities).prod * (ranges.s.map possibilities).prod) ∧
    (∀ rx rm ra rs : Range,
      possibilities_ranges ⟨[rx], [rm], [ra], [rs]⟩ =
        possibilities rx * possibilities rm * possibilities ra * possibilities rs) := by
  constructor
  · intro ranges
    simp [possibilities_ranges, List.prod_append, mul_assoc]
  · intro rx rm ra rs
    simp [possibilities_ranges, List.prod_append, mul_assoc]

/-- C4 (counterexample): the spec says `opposite` keeps only the valid members
of `[1, i.min-1]` and `[i.max+1, 4000]`, so the complement of the full
universe would be empty; the code instead clamps both candidates into
validity and returns `[[1,1], [4000,4000]]`. -/
theorem opposite_full_universe_counterexample :
    opposite ⟨1, 4000⟩ = [⟨1, 1⟩, ⟨4000, 4000⟩] ∧
      opposite ⟨1, 4000⟩ ≠ [] := by
  exact ⟨rfl, by decide⟩

/-- C4 (amended): for a valid interval inside the universe, `opposite` always
returns exactly the two CLAMPED candidates `[1, max(i.min-1, 1)]` and
`[min(i.max+1, 4000), 4000]` (the clamping makes both valid, so the validity
filter never removes anything); this agrees with the spec's candidates
exactly when `2 ≤ i.min` and `i.max ≤ 3999`. -/
theorem opposite_clamped_candidates (i : Range) (h1 : 1 ≤ i.min)
    (h2 : i.min ≤ i.max) (h3 : i.max ≤ 4000) :
    opposite i = [⟨1, max (i.min - 1) 1⟩, ⟨min (i.max + 1) 4000, 4000⟩] ∧
      (2 ≤ i.min → i.max ≤ 3999 →
        opposite i = [⟨1, i.min - 1⟩, ⟨i.max + 1, 4000⟩]) := by
  have hv1 : range_valid ⟨1, max (i.min - 1) 1⟩ = true := by
    simp only [range_valid, decide_eq_true_eq]
    exact le_max_right _ _
  have hv2 : range_valid ⟨min (i.max + 1) 4000, 4000⟩ = true := by
    simp only [range_valid, decide_eq_true_eq]
    exact min_le_right _ _
  have hbase : opposite i =
      [⟨1, max (i.min - 1) 1⟩, ⟨min (i.max + 1) 4000, 4000⟩] := by
    simp [opposite, List.filter, MIN_RANGE, MAX_RANGE, hv1, hv2]
  refine ⟨hbase, fun hmin hmax => ?_⟩
  rw [hbase, max_eq_left (by omega), min_eq_left (by omega)]

/-- C4 (witness). -/
theorem opposite_clamped_candidates_witness :
    (1 ≤ (2 : Int)) ∧ ((2 : Int) ≤ 3999) ∧ ((3999 : Int) ≤ 4000) ∧
      opposite ⟨2, 3999⟩ = [⟨1, (2 : Int) - 1⟩, ⟨(3999 : Int) + 1, 4000⟩] :=
  ⟨by decide, by decide, by decide,
    (opposite_clamped_candidates ⟨2, 3999⟩ (by decide) (by decide)
      (by decide)).2 (by decide) (by decide)⟩

/-- C5 (counterexample): for the condition `x < 1` and the universe value
`v = 1`, the value lies in `to_range` of the condition (which is `[1,1]`
after clamping) although it does not satisfy the condition. -/
theorem to_range_edge_counterexample :
    (to_range ⟨Category.X, Comparison.LessThan, 1⟩).min ≤ 1 ∧
      (1 : Int) ≤ (to_range ⟨Category.X, Comparison.LessThan, 1⟩).max ∧
      ¬ ((1 : Int) < 1) ∧ (1 : Int) ≤ 1 ∧ (1 : Int) ≤ 4000 := by
  decide

/-- C5 (amended): for a universe value `v`, membership in `to_range c` is
equivalent to concretely satisfying `c` PROVIDED the threshold does not sit
at or beyond the universe edge on the clamped side: `2 ≤ value` for
`LessThan`, `value ≤ 3999` for `GreaterThan`. (At those edges the clamp makes
`to_range` contain `1` resp. `4000` even though no value satisfies the
condition there.) -/
theorem to_range_mem_iff (c : Condition) (v : Int) (h1 : 1 ≤ v)
    (h2 : v ≤ 4000)
    (hL : c.comparison = Comparison.LessThan → 2 ≤ c.value)
    (hG : c.comparison = Comparison.GreaterThan → c.value ≤ 3999) :
    ((to_range c).min ≤ v ∧ v ≤ (to_range c).max) ↔
      (match c.comparison with
       | Comparison.LessThan => v < c.value
       | Comparison.GreaterThan => v > c.value) := by
  rcases c with ⟨cat, cmp, value⟩
  cases cmp
  · have hval : 2 ≤ value := hL rfl
    show ((1 : Int) ≤ v ∧ v ≤ max (value - 1) 1) ↔ v < value
    constructor
    · intro h; omega
    · intro h; omega
  · have hval : value ≤ 3999 := hG rfl
    show (min (value + 1) 4000 ≤ v ∧ v ≤ (4000 : Int)) ↔ v > value
    constructor
    · intro h; omega
    · intro h; omega

/-- C5 (witness). -/
theorem to_range_mem_iff_witness :
    (1 ≤ (3 : Int)) ∧ ((3 : Int) ≤ 4000) ∧
      (((to_range ⟨Category.X, Comparison.LessThan, 5⟩).min ≤ 3 ∧
        (3 : Int) ≤ (to_range ⟨Category.X, Comparison.LessThan, 5⟩).max) ↔
        (3 : Int) < 5) :=
  ⟨by decide, by decide,
    to_range_mem_iff ⟨Category.X, Comparison.LessThan, 5⟩ 3 (by decide)
      (by decide) (fun _ => by decide) (fun h => by cases h)⟩

/-- C10: the post-loop `"no workflow found"` error of `apply_workflows` is
unreachable — the loop starts on the one-element stack `["in"]` and every
iteration that does not return pushes exactly one successor onto the stack it
popped from, so the stack is never empty; for every record, table and fuel
the function never yields that error. -/
theorem no_workflow_found_unreachable :
    ∀ (part : Part) (workflows : List Workflow) (fuel : Nat),
      apply_workflows part workflows fuel ≠
        some (Except.error "no workflow found") :=
  fun part workflows fuel =>
    apply_workflows_loop_ne_noWorkflowFound workflows part fuel "in" []

/-- C7: on the canonical 11-workflow fixture table, range evaluation over the
full 1..4000 universe from entry workflow `"in"` returns exactly
`167409079868000` (fuel 100 amply covers the 26 loop iterations). -/
theorem solve2_fixture_example :
    solve2 fixtureWorkflows 100 = some (Except.ok 167409079868000) := by
  rfl

/-- C8: on the canonical fixture table and the 5 sample records, concrete
evaluation returns `19114`, the sum of all four attribute values over every
accepted record. -/
theorem solve1_fixture_example :
    solve1 fixtureWorkflows fixtureParts 100 = some (Except.ok 19114) := by
  rfl

/-- C9: whenever either evaluator pops a state name that is neither sink
`"A"` nor `"R"` and that has no Workflow entry in the table, it immediately
returns `Except.error` to its caller — the unknown-workflow condition is a
hard failure, never silently skipped. -/
theorem missing_workflow_is_error (workflows : List Workflow) (part : Part)
    (name : String) (stack : List String) (ranges : PartRanges)
    (stack2 : List (String × PartRanges)) (result : Int) (fuel : Nat)
    (hR : name ≠ "R") (hA : name ≠ "A")
    (hw : workflow_lookup workflows name = none) :
    apply_workflows_loop workflows part (fuel + 1) (name :: stack) =
        some (Except.error "missing workflow") ∧
      solve2_loop workflows (fuel + 1) ((name, ranges) :: stack2) result =
        some (Except.error "missing workflow") := by
  constructor
  · simp [apply_workflows_loop, hR, hA, hw]
  · simp [solve2_loop, hR, hA, hw]

/-- C9 (witness). -/
theorem missing_workflow_is_error_witness :
    ("x" : String) ≠ "R" ∧ ("x" : String) ≠ "A" ∧
      workflow_lookup [] "x" = none ∧
      apply_workflows_loop [] ⟨0, 0, 0, 0⟩ 1 ["x"] =
        some (Except.error "missing workflow") ∧
      solve2_loop [] 1 [("x", defaultPartRanges)] 0 =
        some (Except.error "missing workflow") :=
  ⟨by decide, by decide, rfl,
    missing_workflow_is_error [] ⟨0, 0, 0, 0⟩ "x" [] defaultPartRanges [] 0 0
      (by decide) (by decide) rfl⟩

/-- C1 (code bug): the acyclic table `cexWorkflows` (`in{a<2001:f,R}`,
`f{a>3000:A,R}`) has entry `"in"` and only defined or sink targets, yet
`solve2` returns `64000000000 = 4000^3` while the concrete evaluator
`apply_workflows` rejects every record, so the accepted count is `0`.
The box routed from `in` to `f` has `a`-list `[[1,2000]]`; intersecting it
with `f`'s matched sub-box (`a`-list `[[3001,4000]]`) empties the `a` list,
but `possibilities_ranges` of a box with an empty attribute list is the
product of the remaining intervals, not zero, so the impossible box is
pushed to sink `"A"` and counted. -/
theorem solve2_concrete_mismatch_bug :
    solve2 cexWorkflows 100 = some (Except.ok 64000000000) ∧
      ∀ p : Part, apply_workflows p cexWorkflows 100 =
        some (Except.ok false) := by
  constructor
  · rfl
  · intro p
    show apply_workflows_loop cexWorkflows p 100 ["in"] =
      some (Except.ok false)
    rw [show (100 : Nat) = 99 + 1 from rfl,
      apply_workflows_loop_step _ _ _ _ _ cexIn (by decide) (by decide)
        cex_lookup_in, cex_apply1_in]
    by_cases h : p.a < 2001
    · rw [if_pos h, show (99 : Nat) = 98 + 1 from rfl,
        apply_workflows_loop_step _ _ _ _ _ cexF (by decide) (by decide)
          cex_lookup_f, cex_apply1_f p (by omega)]
      rfl
    · rw [if_neg h]
      rfl

/-- C2 (code bug): for the workflow `cexW2` (`in{a<2001:A,a>1000:A,A}`) and
the full input box, the `(target, sub-box)` pairs produced by one pass — each
box emitted by `apply_a_workflow2` intersected with the input box as `solve2`
does — do not partition the input box: their volumes sum to `4001·4000^3`,
one `4000^3` more than the volume `4000^4` of the input box (the fallback box
`a ∈ [[1,1],[4000,4000]]` consists solely of clamping ghosts and overlaps the
first matched box at `a = 1`). -/
theorem apply_a_workflow2_partition_bug :
    ((apply_a_workflow2 cexW2).map (fun p =>
        possibilities_ranges (intersect_part_ranges defaultPartRanges p.2))).sum
        = 256064000000000 ∧
      possibilities_ranges defaultPartRanges = 256000000000000 ∧
      (256064000000000 : Int) ≠ 256000000000000 := by
  exact ⟨rfl, rfl, by decide⟩

/-- C6 (counterexample): running `solve2` on `cexWorkflows`, the pair
`("A", c6Box)` is pushed onto the traversal worklist although `c6Box` has an
empty `a`-interval list and hence denotes zero attribute-combinations — its
code volume `possibilities_ranges` is `4000^3 ≠ 0`, so the push filter does
not stop it. -/
theorem solve2_trace_empty_box_counterexample :
    ("A", c6Box) ∈ solve2_trace cexWorkflows 100 ∧ c6Box.a = [] := by
  exact ⟨by decide, rfl⟩

/-- C6 (amended): what the push filter actually guarantees is non-zero CODE
volume: every `(name, box)` pair ever pushed onto the `solve2` worklist
(including the initial one) satisfies `possibilities_ranges box ≠ 0`; since
`possibilities_ranges` is a product that ignores empty attribute lists, this
does not exclude semantically empty boxes. -/
theorem solve2_trace_pushed_nonzero (workflows : List Workflow) (fuel : Nat)
    (p : String × PartRanges) (hp : p ∈ solve2_trace workflows fuel) :
    possibilities_ranges p.2 ≠ 0 := by
  refine solve2_loop_trace_mem_nonzero workflows fuel
    [("in", defaultPartRanges)] 0 [("in", defaultPartRanges)] ?_ p hp
  intro q hq
  rcases List.mem_singleton.mp hq with rfl
  decide

/-- C6 (witness). -/
theorem solve2_trace_pushed_nonzero_witness :
    ("in", defaultPartRanges) ∈ solve2_trace [] 1 ∧
      possibilities_ranges defaultPartRanges ≠ 0 :=
  ⟨by decide, solve2_trace_pushed_nonzero [] 1 ("in", defaultPartRanges)
    (by decide)⟩

end Day19
